import Mathlib

/-!
Verification of the Deep Swipe orchestrator (swipe generation, cancellation
recovery, navigation) against its source.  Messages, the conversation log and
the orchestrator's mutations of it are shallowly embedded as pure Lean values
and functions; every definition is translated from the JavaScript source
(`swipe-user` module = src/unnamed/part_000 unless noted otherwise).
JS deep copies (`JSON.parse(JSON.stringify(...))`, `structuredClone`) are the
identity on values, so they are dropped; DOM / toast / listener side effects
that the properties talk about are tracked as counters and flags.
-/

deriving instance DecidableEq for Except

namespace DeepSwipe

/-- Per-message auxiliary payload (`extra` in the source).  Only the fields the
verified routines inspect are modelled: the scaffold flag
`extra.isDeepSwipeTemp` and the reasoning text carried for swipes. -/
structure MsgExtra where
  isDeepSwipeTemp : Bool := false
  reasoning : Option String := none
  deriving DecidableEq, Repr

/-- One conversation entry, as the source stores it in the shared `chat`
array: displayed text `mes`, role flag `is_user`, the alternatives array
`swipes`, the active index `swipe_id`, and per-swipe metadata `swipe_info`
(modelled by its `extra` payload). -/
structure Message where
  name : String := ""
  is_user : Bool := false
  mes : String := ""
  swipes : List String := []
  swipe_id : Nat := 0
  swipe_info : List MsgExtra := []
  extra : MsgExtra := {}
  deriving DecidableEq, Repr

/-- The shared conversation log (`context.chat`). -/
abbrev Chat := List Message

/-! ## Truncation (generateMessageSwipe, generation phase)

Source, part_000:
* user target: `chat.length = messageId + 1;` (keep entries `0..messageId`),
* assistant target: `chat.length = messageId;` (hide the target as well).
`chat.length = n` on a JS array with `n ≤ length` is `List.take n`. -/

/-- Length the log is truncated to before generating, by target role. -/
def truncationLength (isUserMessage : Bool) (messageId : Nat) : Nat :=
  if isUserMessage then messageId + 1 else messageId

/-- The truncation `chat.length = ...` performed right before the scaffold
entry is pushed and `Generate` is invoked. -/
def truncateForGeneration (chat : Chat) (isUserMessage : Bool) (messageId : Nat) : Chat :=
  chat.take (truncationLength isUserMessage messageId)

/-! ## Abort cleanup (generateMessageSwipe, `performAbortCleanup` closure)

Source, part_000 lines 303-495.  The closure captures `messageId`,
`isUserMessage`, `capturedTargetMessage` (a deep copy of the target taken at
cycle start, carrying the reserved `''` placeholder) and
`capturedMessagesAfter` (deep copies of the entries after the target); it
reads and writes the module-level `chatBackupBeforeGeneration` and the
per-cycle `abortCleanupDone` flag. -/

/-- Parameters `performAbortCleanup` captures from the enclosing cycle. -/
structure CleanupParams where
  messageId : Nat
  isUserMessage : Bool
  capturedTargetMessage : Message
  capturedMessagesAfter : List Message
  deriving DecidableEq, Repr

/-- State `performAbortCleanup` reads and mutates: the shared chat, the
module-level backup, the once-guard flag, and counters for its observable
side effects (chat restoration passes, `context.saveChat()` calls,
stop-warning toasts). -/
structure CleanupState where
  chat : Chat
  chatBackupBeforeGeneration : Option Chat
  abortCleanupDone : Bool
  restoreCount : Nat := 0
  saveCount : Nat := 0
  warningCount : Nat := 0
  deriving DecidableEq, Repr

/-- The backwards `for` loop
`for (let i = chat.length - 1; i >= 0; i--) if (chat[i]?.extra?.isDeepSwipeTemp) { tempMessageIndex = i; break; }`:
index of the last entry flagged as a Deep Swipe scaffold, if any. -/
def findLastTempIdx : Chat → Option Nat
  | [] => none
  | m :: rest =>
    match findLastTempIdx rest with
    | some i => some (i + 1)
    | none => if m.extra.isDeepSwipeTemp then some 0 else none

/-- Fallback restoration of the target for assistant swipes
(`restoredTarget.swipes.pop(); swipe_id = Math.max(0, swipes.length - 1);
mes = swipes[swipe_id]`).  `Nat` subtraction matches `Math.max(0, len - 1)`;
`swipes[swipe_id]` is `undefined` (rendered as `""`) only when the popped
array is empty. -/
def fallbackRestoredTarget (captured : Message) : Message :=
  let swipes' := captured.swipes.dropLast
  { captured with
    swipes := swipes'
    swipe_id := swipes'.length - 1
    mes := swipes'.getD (swipes'.length - 1) "" }

/-- The `else` branch of the backup check: piece-by-piece restoration from the
captured per-cycle copies. -/
def fallbackRestore (p : CleanupParams) (chat1 : Chat) : Chat :=
  if p.isUserMessage then
    chat1 ++ p.capturedMessagesAfter
  else
    chat1 ++ [fallbackRestoredTarget p.capturedTargetMessage] ++ p.capturedMessagesAfter

/-- `performAbortCleanup` (part_000 lines 303-495), state effects only:
1. `if (abortCleanupDone) return;` then set the flag;
2. remove listeners (no chat effect);
3. find the last scaffold entry and truncate to it; if none is present,
   truncate to `messageId + 1` (user target) or `messageId` (assistant);
4. if `chatBackupBeforeGeneration` is non-null and
   `chatBackupBeforeGeneration.length >= chat.length`, wholesale-replace the
   chat with the backup (`chat.length = 0; chat.push(...backup)`), otherwise
   restore piece-by-piece from the captured copies;
5. clear the backup, save the chat (`context.saveChat()`), warn the user. -/
def performAbortCleanup (p : CleanupParams) (s : CleanupState) : CleanupState :=
  if s.abortCleanupDone then s
  else
    let chat1 :=
      match findLastTempIdx s.chat with
      | some t => s.chat.take t
      | none =>
        if p.isUserMessage then s.chat.take (p.messageId + 1)
        else s.chat.take p.messageId
    let chat2 :=
      match s.chatBackupBeforeGeneration with
      | some backup =>
        if chat1.length ≤ backup.length then backup
        else fallbackRestore p chat1
      | none => fallbackRestore p chat1
    { chat := chat2
      chatBackupBeforeGeneration := none
      abortCleanupDone := true
      restoreCount := s.restoreCount + 1
      saveCount := s.saveCount + 1
      warningCount := s.warningCount + 1 }

/-! ## JS string trimming (`generatedText.trim()`) -/

/-- Whitespace removed by JS `String.prototype.trim`: the ASCII whitespace
characters plus the common Unicode space characters. -/
def isJsWhitespace (c : Char) : Bool :=
  c = ' ' || c = '\t' || c = '\n' || c = '\r' ||
  c = '\x0b' || c = '\x0c' || c = ' ' || c = '﻿'

/-- Trailing-whitespace removal on a character list. -/
def trimTrailing (l : List Char) : List Char :=
  (l.reverse.dropWhile isJsWhitespace).reverse

/-- `trim()` on a character list: drop leading then trailing whitespace. -/
def trimChars (l : List Char) : List Char :=
  trimTrailing (l.dropWhile isJsWhitespace)

/-- JS `s.trim()`. -/
def jsTrim (s : String) : String :=
  String.mk (trimChars s.data)

/-! ## Committing the generated text (generateMessageSwipe, success path)

Source, part_000:
`if (generatedText && generatedText.trim()) { const trimmedText = generatedText.trim(); ... actualTargetMessage.swipes[newSwipeIndex] = trimmedText; ... } else { throw new Error('Generation failed: no text received'); }` -/

/-- The guard + the text actually stored: `some trimmedText` when the JS
condition `generatedText && generatedText.trim()` is truthy (both the raw
text and its trim are non-empty strings), `none` when the failure path is
taken instead. -/
def commitDecision (generatedText : String) : Option String :=
  if generatedText = "" then none
  else if jsTrim generatedText = "" then none
  else some (jsTrim generatedText)

/-- JS array element assignment `swipes[i] = text` for `i ≤ swipes.length`:
overwrite in range, append exactly at the end (the reserved-placeholder index
is always in this range). -/
def storeSwipeAt (swipes : List String) (i : Nat) (text : String) : List String :=
  if i < swipes.length then swipes.set i text else swipes ++ [text]

/-! ## Swipe ledger: clamp / capture / reserve / commit (generateMessageSwipe)

Source, part_000 lines 160-213 (capture), 268-278 (reserve), 818-871 (store)
and 1002-1015 (default stay-on-original display reset). -/

/-- `if (message.swipe_id >= message.swipes?.length) { message.swipe_id = 0; }`
-- defensive normalization of corrupt swipe data at cycle start. -/
def clampSwipeId (m : Message) : Message :=
  if m.swipes.length ≤ m.swipe_id then { m with swipe_id := 0 } else m

/-- JS `a || b` for strings: `b` when `a` is falsy (the empty string). -/
def jsOrString (a b : String) : String :=
  if a = "" then b else a

/-- Pre-cycle data captured before any truncation or modification:
`currentText = message.mes`, `originalSwipeId = message.swipe_id || 0` after
the clamp, `originalSwipeText = message.swipes?.[originalSwipeId] || currentText`,
`originalSwipeExtra = message.swipe_info?.[originalSwipeId]?.extra ?? message.extra`. -/
structure CycleCapture where
  currentText : String
  originalSwipeId : Nat
  originalSwipeText : String
  originalSwipeExtra : MsgExtra
  deriving DecidableEq, Repr

/-- The capture step of `generateMessageSwipe`. -/
def captureOriginal (m : Message) : CycleCapture :=
  let currentText := m.mes
  let m0 := clampSwipeId m
  let originalSwipeId := m0.swipe_id
  { currentText := currentText
    originalSwipeId := originalSwipeId
    originalSwipeText := jsOrString ((m0.swipes.get? originalSwipeId).getD "") currentText
    originalSwipeExtra := (m0.swipe_info.get? originalSwipeId).getD m0.extra }

/-- Reserving the new alternative:
`capturedTargetMessage.swipes.push(''); newSwipeIndex = swipes.length - 1;`
with, per the source comment, `swipe_id` deliberately NOT updated (keep
showing the original swipe during generation). -/
def reserveAlternative (m : Message) : Message × Nat :=
  let m' := { m with swipes := m.swipes ++ [""] }
  (m', m'.swipes.length - 1)

/-- Success-path commit followed by the default stay-on-original display
policy: `swipes[newSwipeIndex] = trimmedText`, push the new swipe's
`swipe_info` entry, then `swipe_id = originalSwipeId; mes = originalSwipeText;
extra = originalSwipeExtra` (the new alternative exists but is not
displayed). -/
def commitStayOriginal (cap : CycleCapture) (m : Message) (newSwipeIndex : Nat)
    (trimmed : String) (genMeta : MsgExtra) : Message :=
  { m with
    swipes := storeSwipeAt m.swipes newSwipeIndex trimmed
    swipe_info := m.swipe_info ++ [genMeta]
    swipe_id := cap.originalSwipeId
    mes := cap.originalSwipeText
    extra := cap.originalSwipeExtra }

/-! ## Navigation across existing alternatives

Forward: part_001 (ui module) `addSwipeNavigationToMessage`, right-arrow
click handler.  Backward: part_000 `dswipeBack`. -/

/-- What the right-arrow click handler decides to do. -/
inductive ForwardAction where
  | generateNew
  | navigate (targetSwipeId : Nat)
  deriving DecidableEq, Repr

/-- `const currentId = msg.swipe_id || 0; const totalSwipes = msg.swipes?.length || 1;
if (currentId >= totalSwipes - 1) { ...generate a new swipe... } else { const targetSwipeId = currentId + 1; ... }`. -/
def forwardDispatch (msg : Message) : ForwardAction :=
  let currentId := msg.swipe_id
  let totalSwipes := max msg.swipes.length 1
  if totalSwipes - 1 ≤ currentId then .generateNew
  else .navigate (currentId + 1)

/-- The manual forward-navigation update
(`msg.swipe_id = targetSwipeId; msg.mes = msg.swipes[targetSwipeId];`); the
assistant branch is fixed up to the same state after the native call.  In the
navigate branch the target id is always in range, so the `""` default of
`getD` is never used. -/
def applyForwardNavigation (msg : Message) : Message :=
  match forwardDispatch msg with
  | .generateNew => msg
  | .navigate t => { msg with swipe_id := t, mes := msg.swipes.getD t "" }

/-- What `dswipeBack` decides to do for an entry. -/
inductive BackAction where
  | noSwipes
  | navigate (targetSwipeId : Nat)
  deriving DecidableEq, Repr

/-- `if (!Array.isArray(message.swipes) || message.swipes.length <= 1) return 'No swipes to navigate';
const targetSwipeId = Math.max(0, currentId - 1);` -- JS arithmetic on signed
numbers, hence the `Int` round trip. -/
def backDispatch (msg : Message) : BackAction :=
  if msg.swipes.length ≤ 1 then .noSwipes
  else .navigate (max 0 ((msg.swipe_id : Int) - 1)).toNat

/-- Entry-level effect of `dswipeBack` (manual update performed by
`handleUserSwipeBack`, and the state the native path ends in): a no-op pair
when there is nothing to navigate to, otherwise the entry moved to the
target alternative.  The `Bool` says whether a navigation happened. -/
def applyBackNavigation (msg : Message) : Message × Bool :=
  match backDispatch msg with
  | .noSwipes => (msg, false)
  | .navigate t => ({ msg with swipe_id := t, mes := msg.swipes.getD t "" }, true)

/-! ## `dswipeBack` on the whole log (part_000, assistant branch)

`const messagesToRestore = chat.slice(messageId + 1); chat.length = messageId + 1;
try { await context.swipe.left(...); chat.push(...messagesToRestore); ...; return 'Navigated ...'; }
catch (err) { chat.push(...messagesToRestore); throw err; }` -/

/-- Outcome of a `dswipeBack` call: the log afterwards, the returned string or
rethrown error, and the log length the native swipe call saw. -/
structure BackNavOutcome where
  chat : Chat
  result : Except String String
  visibleLenDuringCall : Nat
  deriving DecidableEq, Repr

/-- `dswipeBack` for an assistant target.  The opaque `context.swipe.left`
call is the parameter `native`: it yields the updated target entry or throws.
`isValidMessageId` failing (index out of range) returns early with the log
untouched; so does an entry with at most one alternative. -/
def dswipeBackAssistant (chat : Chat) (messageId : Nat)
    (native : Message → Except String Message) : BackNavOutcome :=
  match chat.get? messageId with
  | none =>
    { chat := chat, result := .error "Invalid message ID"
      visibleLenDuringCall := chat.length }
  | some target =>
    if target.swipes.length ≤ 1 then
      { chat := chat, result := .ok "No swipes to navigate"
        visibleLenDuringCall := chat.length }
    else
      let messagesToRestore := chat.drop (messageId + 1)
      let truncated := chat.take (messageId + 1)
      match native target with
      | .ok updated =>
        { chat := truncated.set messageId updated ++ messagesToRestore
          result := .ok "Navigated"
          visibleLenDuringCall := truncated.length }
      | .error e =>
        { chat := truncated ++ messagesToRestore
          result := .error e
          visibleLenDuringCall := truncated.length }

/-! ## Generation completion and the cycle's error path (generateMessageSwipe)

Completion: `const assistantMessage = chat[chat.length - 1];
if (!assistantMessage || assistantMessage.is_user) throw new Error('No assistant message generated');
const generatedText = assistantMessage.mes; ...
if (generatedText && generatedText.trim()) { ...commit... } else throw new Error('Generation failed: no text received');`

Error path (the `catch` block): if the stop was not confirmed as ours,
minimal cleanup only (listeners, toast, loading class, overlay), a warning
toast, rethrow -- the chat is not touched; if it was ours and the abort
cleanup has not already run, the inline restore runs (truncate, re-insert
captured copies, pop the revert target's trailing swipe and swipe_info
entry), then rethrow. -/

/-- The two failure modes of normal completion. -/
inductive GenError where
  | noAssistantMessage
  | noTextReceived
  deriving DecidableEq, Repr

/-- Validation + extraction the driver performs when `Generate()` resolves
normally: the generated entry is whatever occupies the final position of the
log; it must exist, be Agent-role, and carry non-whitespace content, in which
case its trimmed text is the generation result. -/
def completeGeneration (chat : Chat) : Except GenError String :=
  match chat.getLast? with
  | none => .error .noAssistantMessage
  | some am =>
    if am.is_user then .error .noAssistantMessage
    else if am.mes = "" then .error .noTextReceived
    else if jsTrim am.mes = "" then .error .noTextReceived
    else .ok (jsTrim am.mes)

/-- Cycle data the `catch` block reads. -/
structure CatchCtx where
  messageId : Nat
  isUserMessage : Bool
  capturedMessagesAfter : List Message
  originalTargetMessage : Option Message
  deriving DecidableEq, Repr

/-- State at the moment an error reaches the cycle's `catch` block. -/
structure CatchState where
  chat : Chat
  isOurGeneration : Bool
  abortCleanupDone : Bool
  deriving DecidableEq, Repr

/-- Observable outcome of the `catch` block. -/
structure CatchResult where
  chat : Chat
  listenersDetached : Bool
  uiCleaned : Bool
  restoredLog : Bool
  warnedInconsistent : Bool
  rethrown : Bool
  deriving DecidableEq, Repr

/-- `revertTarget.swipes.pop(); revertTarget.swipe_info?.pop();
revertTarget.swipe_id = Math.max(0, revertTarget.swipes.length - 1);`
(`Nat` subtraction is exactly `Math.max(0, len - 1)`). -/
def revertReservedSwipe (m : Message) : Message :=
  let swipes' := m.swipes.dropLast
  { m with
    swipes := swipes'
    swipe_info := m.swipe_info.dropLast
    swipe_id := swipes'.length - 1 }

/-- The `catch` block of `generateMessageSwipe` (part_000 lines 1061-1147).
In the ambiguous-ownership branch the chat is deliberately left untouched.
In the inline-cleanup branch, for a user target the chat is truncated to
`messageId + 1` and the captured copies are spliced back; for an assistant
target it is truncated to `messageId`, `originalTargetMessage` is pushed
(the splice at `messageId + 1` clamps to the end when it is absent), then the
captured copies follow; finally the revert target -- the entry now at
`messageId` -- has its trailing swipe popped. -/
def handleGenerationError (ctx : CatchCtx) (s : CatchState) : CatchResult :=
  if !s.isOurGeneration then
    { chat := s.chat, listenersDetached := true, uiCleaned := true
      restoredLog := false, warnedInconsistent := true, rethrown := true }
  else if s.abortCleanupDone then
    { chat := s.chat, listenersDetached := false, uiCleaned := false
      restoredLog := false, warnedInconsistent := false, rethrown := true }
  else
    let base :=
      if ctx.isUserMessage then
        s.chat.take (ctx.messageId + 1) ++ ctx.capturedMessagesAfter
      else
        s.chat.take ctx.messageId ++
          (match ctx.originalTargetMessage with
            | some t => [t]
            | none => []) ++ ctx.capturedMessagesAfter
    let reverted :=
      match base.get? ctx.messageId with
      | some t => base.set ctx.messageId (revertReservedSwipe t)
      | none => base
    { chat := reverted, listenersDetached := true, uiCleaned := true
      restoredLog := true, warnedInconsistent := false, rethrown := true }

/-! ## Persistence after cleanup/commit

Source: part_000 line 1057 `await saveChatConditional();` on the success path
and line 477 `await context.saveChat();` inside the abort cleanup -- in both
places a single external save call, with no pre-write copy taken, no
post-save comparison, and no restore.  The external save may mutate the
shared chat as a side effect; that effect is the parameter `persist`. -/

/-- Effect of the orchestrator's save step on the shared log: the external
save's own effect, passed through unguarded. -/
def savePhase (persist : Chat → Chat) (chat : Chat) : Chat :=
  persist chat

/-- Modelled from the spec (no corresponding code exists; for comparison
with `savePhase`): one guarded save -- capture a pre-write copy, run the
external save, compare post-save content entry-by-entry, restore the
pre-write copy if any entry's content differs. -/
def specGuardedSave (persist : Chat → Chat) (chat : Chat) : Chat :=
  let preWrite := chat
  let afterSave := persist chat
  if afterSave.map (fun m => m.mes) = preWrite.map (fun m => m.mes) then afterSave
  else preWrite

/-- Modelled from the spec: the guarded save repeated twice. -/
def specGuardedSaveTwice (persist : Chat → Chat) (chat : Chat) : Chat :=
  specGuardedSave persist (specGuardedSave persist chat)

/-- A persist stub that mutates one entry's content as a side effect (the
spec's corruption-guard test double). -/
def corruptingPersist : Chat → Chat
  | [] => []
  | m :: rest => { m with mes := "corrupted" } :: rest

/-! Supporting facts about the trimming primitive. -/

theorem dropWhile_self_eq (l : List Char) :
    (l.dropWhile isJsWhitespace).dropWhile isJsWhitespace = l.dropWhile isJsWhitespace := by
  induction l with
  | nil => rfl
  | cons x xs ih =>
    by_cases h : isJsWhitespace x = true
    · rw [List.dropWhile_cons, if_pos h]; exact ih
    · rw [List.dropWhile_cons, if_neg h, List.dropWhile_cons, if_neg h]

theorem head?_dropWhile_false (l : List Char) (a : Char)
    (h : (l.dropWhile isJsWhitespace).head? = some a) : isJsWhitespace a = false := by
  induction l with
  | nil => simp at h
  | cons x xs ih =>
    by_cases hx : isJsWhitespace x = true
    · rw [List.dropWhile_cons, if_pos hx] at h; exact ih h
    · rw [List.dropWhile_cons, if_neg hx] at h
      simp at h
      subst h
      exact Bool.not_eq_true _ |>.mp hx

theorem trimTrailing_append_eq (l : List Char) :
    trimTrailing l ++ (l.reverse.takeWhile isJsWhitespace).reverse = l := by
  have h : l.reverse.takeWhile isJsWhitespace ++ l.reverse.dropWhile isJsWhitespace
      = l.reverse :=
    List.takeWhile_append_dropWhile isJsWhitespace l.reverse
  calc trimTrailing l ++ (l.reverse.takeWhile isJsWhitespace).reverse
      = (l.reverse.takeWhile isJsWhitespace ++ l.reverse.dropWhile isJsWhitespace).reverse := by
        rw [List.reverse_append]; rfl
    _ = l := by rw [h, List.reverse_reverse]

theorem trimTrailing_idem (l : List Char) : trimTrailing (trimTrailing l) = trimTrailing l := by
  unfold trimTrailing
  rw [List.reverse_reverse, dropWhile_self_eq]

theorem head?_of_append_head? {m t x : List Char} {a : Char}
    (hx : m ++ t = x) (hm : m.head? = some a) : x.head? = some a := by
  cases m with
  | nil => simp at hm
  | cons b u =>
    simp at hm
    subst hm
    rw [← hx]
    rfl

theorem trimChars_idem (l : List Char) : trimChars (trimChars l) = trimChars l := by
  unfold trimChars
  have hdrop : (trimTrailing (l.dropWhile isJsWhitespace)).dropWhile isJsWhitespace
      = trimTrailing (l.dropWhile isJsWhitespace) := by
    cases hm : trimTrailing (l.dropWhile isJsWhitespace) with
    | nil => rfl
    | cons b u =>
      have hb : isJsWhitespace b = false := by
        apply head?_dropWhile_false l
        apply head?_of_append_head? (trimTrailing_append_eq (l.dropWhile isJsWhitespace))
        rw [hm]; rfl
      rw [List.dropWhile_cons, if_neg (by simp [hb])]
  rw [hdrop, trimTrailing_idem]

/-- `trim()` is idempotent: trimmed text has no surrounding whitespace left. -/
theorem jsTrim_idem (s : String) : jsTrim (jsTrim s) = jsTrim s := by
  show String.mk (trimChars (trimChars s.data)) = String.mk (trimChars s.data)
  rw [trimChars_idem]

/-- An all-whitespace character list trims to nothing. -/
theorem trimChars_eq_nil_of_all_ws (l : List Char)
    (h : ∀ c ∈ l, isJsWhitespace c) : trimChars l = [] := by
  unfold trimChars
  rw [List.dropWhile_eq_nil_iff.mpr h]
  rfl

/-- Overwriting the element just past a list (`(l ++ [a]).set l.length b`)
replaces that trailing element. -/
theorem set_append_last (l : List String) (a b : String) :
    (l ++ [a]).set l.length b = l ++ [b] := by
  induction l with
  | nil => rfl
  | cons x xs ih =>
    show (x :: (xs ++ [a])).set (xs.length + 1) b = x :: (xs ++ [b])
    rw [List.set_cons_succ, ih]

end DeepSwipe

namespace DeepSwipe

/-- C2 -- Role-dependent truncation: for a User-role target at index `i` the
visible prefix after truncation is `chat.take (i+1)` (entries `0..i`, length
`i+1`); for an Agent-role target it is `chat.take i` (entries `0..i-1`,
length `i`), the target itself being hidden.  Entries of the kept range are
unchanged. -/
theorem truncation_role_asymmetry (chat : Chat) (i : Nat) (hi : i < chat.length) :
    (truncateForGeneration chat true i).length = i + 1 ∧
    (truncateForGeneration chat false i).length = i ∧
    truncateForGeneration chat true i = chat.take (i + 1) ∧
    truncateForGeneration chat false i = chat.take i ∧
    (∀ j, j ≤ i → (truncateForGeneration chat true i)[j]? = chat[j]?) ∧
    (∀ j, j < i → (truncateForGeneration chat false i)[j]? = chat[j]?) := by
  refine ⟨?_, ?_, rfl, rfl, ?_, ?_⟩
  · simp [truncateForGeneration, truncationLength]
    omega
  · simp [truncateForGeneration, truncationLength]
    omega
  · intro j hj
    show (chat.take (i + 1))[j]? = chat[j]?
    exact List.getElem?_take_of_lt (by omega)
  · intro j hj
    show (chat.take i)[j]? = chat[j]?
    exact List.getElem?_take_of_lt (by omega)

/-- C2 witness -- the spec's concrete check: log of length 5, target index 2;
visible prefix length 3 for a User-role target, 2 for an Agent-role target. -/
theorem truncation_role_asymmetry_check :
    (2 < ([{mes := "a"}, {mes := "b"}, {mes := "c"}, {mes := "d"}, {mes := "e"}] : Chat).length) ∧
    (truncateForGeneration [{mes := "a"}, {mes := "b"}, {mes := "c"}, {mes := "d"}, {mes := "e"}] true 2).length = 3 ∧
    (truncateForGeneration [{mes := "a"}, {mes := "b"}, {mes := "c"}, {mes := "d"}, {mes := "e"}] false 2).length = 2 := by
  refine ⟨by decide, ?_, ?_⟩
  · exact (truncation_role_asymmetry _ 2 (by decide)).1
  · exact (truncation_role_asymmetry _ 2 (by decide)).2.1

/-- A finished cleanup pass leaves its `abortCleanupDone` flag set, so a
further invocation is the identity. -/
theorem performAbortCleanup_of_done (p : CleanupParams) (s : CleanupState)
    (h : s.abortCleanupDone = true) : performAbortCleanup p s = s := by
  simp [performAbortCleanup, h]

/-- After any invocation of the cleanup routine the once-guard flag is set. -/
theorem performAbortCleanup_done (p : CleanupParams) (s : CleanupState) :
    (performAbortCleanup p s).abortCleanupDone = true := by
  by_cases h : s.abortCleanupDone <;> simp [performAbortCleanup, h]

/-- C1 -- Restoration fidelity: for every pre-cycle log `origChat`, every
target index, and every state `cancelChat` the shared log may be in at the
moment the halted signal fires (any scaffold entry still present sits at an
index within the original length), running the abort cleanup with the
cycle-start backup in place leaves the log value-equal to `origChat`; the
routine replaces the log's contents wholesale from the backup -- the result
does not depend on `cancelChat` at all -- rather than undoing mutations one
by one. -/
theorem cancel_restores_snapshot (p : CleanupParams) (origChat cancelChat : Chat)
    (hmid : p.messageId < origChat.length)
    (htemp : ∀ t, findLastTempIdx cancelChat = some t → t ≤ origChat.length) :
    (performAbortCleanup p
      { chat := cancelChat
        chatBackupBeforeGeneration := some origChat
        abortCleanupDone := false }).chat = origChat := by
  have hlen :
      (match findLastTempIdx cancelChat with
        | some t => cancelChat.take t
        | none =>
          if p.isUserMessage then cancelChat.take (p.messageId + 1)
          else cancelChat.take p.messageId).length ≤ origChat.length := by
    cases h : findLastTempIdx cancelChat with
    | some t =>
      have ht := htemp t h
      calc (cancelChat.take t).length ≤ t := by
            simp [List.length_take]
        _ ≤ origChat.length := ht
    | none =>
      by_cases hu : p.isUserMessage <;>
        simp [hu, List.length_take] <;> omega
  simp only [performAbortCleanup, Bool.false_eq_true, if_false]
  rw [if_pos hlen]

/-- C1 witness -- concrete cancellation: two-entry log, assistant target at
index 1, cancelled while the log holds the truncated prefix, the scaffold
entry and a partial engine tail; cleanup restores the exact pre-cycle log. -/
theorem cancel_restores_snapshot_check :
    (1 < ([{mes := "hi", is_user := true}, {mes := "hello", swipes := ["hello"]}] : Chat).length) ∧
    (performAbortCleanup
      { messageId := 1, isUserMessage := false
        capturedTargetMessage := {mes := "hello", swipes := ["hello", ""]}
        capturedMessagesAfter := [] }
      { chat := [{mes := "hi", is_user := true},
                 {mes := "scaffold", is_user := true, extra := {isDeepSwipeTemp := true}},
                 {mes := "partial output"}]
        chatBackupBeforeGeneration :=
          some [{mes := "hi", is_user := true}, {mes := "hello", swipes := ["hello"]}]
        abortCleanupDone := false }).chat =
      [{mes := "hi", is_user := true}, {mes := "hello", swipes := ["hello"]}] := by
  refine ⟨by decide, ?_⟩
  refine cancel_restores_snapshot _ _ _ (by decide) ?_
  intro t ht
  rw [show findLastTempIdx
      [{mes := "hi", is_user := true},
       {mes := "scaffold", is_user := true, extra := {isDeepSwipeTemp := true}},
       {mes := "partial output"}] = some 1 from by decide] at ht
  injection ht with h
  subst h
  decide

/-- C5 -- Idempotent cleanup: running the abort cleanup twice in succession
(two signal sources) equals running it once, and starting from a cycle whose
cleanup has not yet run, the double invocation performs the restore, save and
warning side effects exactly once -- the second call is a guarded no-op. -/
theorem cleanup_idempotent (p : CleanupParams) (s : CleanupState) :
    performAbortCleanup p (performAbortCleanup p s) = performAbortCleanup p s ∧
    (s.abortCleanupDone = false →
      (performAbortCleanup p (performAbortCleanup p s)).restoreCount = s.restoreCount + 1 ∧
      (performAbortCleanup p (performAbortCleanup p s)).saveCount = s.saveCount + 1 ∧
      (performAbortCleanup p (performAbortCleanup p s)).warningCount = s.warningCount + 1) := by
  have hsecond :
      performAbortCleanup p (performAbortCleanup p s) = performAbortCleanup p s :=
    performAbortCleanup_of_done p _ (performAbortCleanup_done p s)
  refine ⟨hsecond, fun h => ?_⟩
  rw [hsecond]
  refine ⟨?_, ?_, ?_⟩ <;> simp [performAbortCleanup, h]

/-- C5 witness -- double invocation from a fresh cycle on a one-entry log:
the states after one and two invocations coincide and each side-effect
counter has advanced exactly once. -/
theorem cleanup_idempotent_check :
    (({ chat := [{mes := "x"}], chatBackupBeforeGeneration := some [{mes := "x"}],
        abortCleanupDone := false } : CleanupState).abortCleanupDone = false) ∧
    (performAbortCleanup
        { messageId := 0, isUserMessage := true
          capturedTargetMessage := {mes := "x"}, capturedMessagesAfter := [] }
        (performAbortCleanup
          { messageId := 0, isUserMessage := true
            capturedTargetMessage := {mes := "x"}, capturedMessagesAfter := [] }
          { chat := [{mes := "x"}], chatBackupBeforeGeneration := some [{mes := "x"}],
            abortCleanupDone := false }) =
      performAbortCleanup
        { messageId := 0, isUserMessage := true
          capturedTargetMessage := {mes := "x"}, capturedMessagesAfter := [] }
        { chat := [{mes := "x"}], chatBackupBeforeGeneration := some [{mes := "x"}],
          abortCleanupDone := false }) ∧
    (performAbortCleanup
        { messageId := 0, isUserMessage := true
          capturedTargetMessage := {mes := "x"}, capturedMessagesAfter := [] }
        (performAbortCleanup
          { messageId := 0, isUserMessage := true
            capturedTargetMessage := {mes := "x"}, capturedMessagesAfter := [] }
          { chat := [{mes := "x"}], chatBackupBeforeGeneration := some [{mes := "x"}],
            abortCleanupDone := false })).saveCount = 1 := by
  refine ⟨rfl, ?_, ?_⟩
  · exact (cleanup_idempotent _ _).1
  · exact ((cleanup_idempotent _ _).2 rfl).2.1

/-- C9 -- Trimmed commit: whenever the success path commits a text `t` for a
generated string `g`, `t` is exactly `g` trimmed, `t` itself has no
surrounding whitespace left (`jsTrim t = t`), `t` is non-empty, and writing
`t` at the reserved placeholder index turns `swipes ++ [""]` into
`swipes ++ [t]`; a generated string that is empty or whitespace-only is never
committed -- `commitDecision` takes the failure path. -/
theorem committed_swipe_text_trimmed (g : String) (swipes : List String) :
    (∀ t, commitDecision g = some t →
      t = jsTrim g ∧ jsTrim t = t ∧ t ≠ "" ∧
      storeSwipeAt (swipes ++ [""]) swipes.length t = swipes ++ [t]) ∧
    ((g = "" ∨ ∀ c ∈ g.data, isJsWhitespace c) → commitDecision g = none) := by
  constructor
  · intro t ht
    unfold commitDecision at ht
    by_cases hg : g = ""
    · rw [if_pos hg] at ht; exact absurd ht (by simp)
    · rw [if_neg hg] at ht
      by_cases htr : jsTrim g = ""
      · rw [if_pos htr] at ht; exact absurd ht (by simp)
      · rw [if_neg htr] at ht
        injection ht with hte
        subst hte
        refine ⟨rfl, jsTrim_idem g, htr, ?_⟩
        unfold storeSwipeAt
        rw [if_pos (by simp)]
        exact set_append_last swipes "" (jsTrim g)
  · intro h
    cases h with
    | inl hg => simp [commitDecision, hg]
    | inr hws =>
      have hnil : trimChars g.data = [] := trimChars_eq_nil_of_all_ws _ hws
      have htr : jsTrim g = "" := by
        show String.mk (trimChars g.data) = ""
        rw [hnil]
      by_cases hg : g = "" <;> simp [commitDecision, hg, htr]

/-- C9 witness -- generated text with surrounding whitespace is committed
trimmed; a whitespace-only generation is rejected. -/
theorem committed_swipe_text_trimmed_check :
    (commitDecision " hey there\n" = some "hey there" ∧
      ("hey there" : String) = jsTrim " hey there\n" ∧
      jsTrim "hey there" = "hey there" ∧
      ("hey there" : String) ≠ "" ∧
      storeSwipeAt (["hello"] ++ [""]) (["hello"] : List String).length "hey there"
        = ["hello"] ++ ["hey there"]) ∧
    commitDecision "  \n " = none := by
  refine ⟨⟨by decide, ?_⟩, ?_⟩
  · exact (committed_swipe_text_trimmed " hey there\n" ["hello"]).1 "hey there" (by decide)
  · exact (committed_swipe_text_trimmed "  \n " []).2
      (Or.inr (by decide))

/-- C4 -- Read-while-generating: for a well-formed entry (`swipe_id` in range
and `mes` the active alternative), reserving the new alternative appends one
empty placeholder, leaves `swipe_id` unchanged and returns the old length as
the reserved index; after a successful commit under the default
stay-on-original policy, the displayed `mes` and `swipe_id` equal their
pre-cycle values while `swipes` has grown by exactly one, the trimmed text
sits at the reserved index and every pre-existing alternative is untouched. -/
theorem reserve_commit_stay_on_original (m : Message) (trimmed : String) (genMeta : MsgExtra)
    (hwf : m.swipe_id < m.swipes.length)
    (hmes : m.swipes.get? m.swipe_id = some m.mes) :
    (reserveAlternative m).1.swipes.length = m.swipes.length + 1 ∧
    (reserveAlternative m).1.swipes.get? (reserveAlternative m).2 = some "" ∧
    (reserveAlternative m).1.swipe_id = m.swipe_id ∧
    (reserveAlternative m).2 = m.swipes.length ∧
    (commitStayOriginal (captureOriginal m) (reserveAlternative m).1
        (reserveAlternative m).2 trimmed genMeta).mes = m.mes ∧
    (commitStayOriginal (captureOriginal m) (reserveAlternative m).1
        (reserveAlternative m).2 trimmed genMeta).swipe_id = m.swipe_id ∧
    (commitStayOriginal (captureOriginal m) (reserveAlternative m).1
        (reserveAlternative m).2 trimmed genMeta).swipes = m.swipes ++ [trimmed] := by
  have hclamp : clampSwipeId m = m := by
    unfold clampSwipeId
    rw [if_neg (by omega)]
  have hcapid : (captureOriginal m).originalSwipeId = m.swipe_id := by
    simp [captureOriginal, hclamp]
  have hcaptext : (captureOriginal m).originalSwipeText = m.mes := by
    have hge : m.swipes[m.swipe_id]? = some m.mes := by
      rw [← List.get?_eq_getElem?]; exact hmes
    simp [captureOriginal, hclamp, jsOrString, hge]
  have hidx : (reserveAlternative m).2 = m.swipes.length := by
    simp [reserveAlternative]
  refine ⟨by simp [reserveAlternative], ?_, rfl, hidx, ?_, ?_, ?_⟩
  · rw [hidx]
    exact List.get?_concat_length m.swipes ""
  · simpa [commitStayOriginal] using hcaptext
  · simpa [commitStayOriginal] using hcapid
  · show storeSwipeAt (m.swipes ++ [""]) (reserveAlternative m).2 trimmed = m.swipes ++ [trimmed]
    rw [hidx]
    unfold storeSwipeAt
    rw [if_pos (by simp)]
    exact set_append_last m.swipes "" trimmed

/-- C4 witness -- the spec's end-to-end ledger check: entry
`{mes := "hello", swipes := ["hello"], swipe_id := 0}`; after reserve + commit
of `"hey there"` under stay-on-original, the entry still displays `"hello"`
at index 0 while `swipes = ["hello", "hey there"]`. -/
theorem reserve_commit_stay_on_original_check :
    (({mes := "hello", swipes := ["hello"]} : Message).swipe_id <
        ({mes := "hello", swipes := ["hello"]} : Message).swipes.length) ∧
    (({mes := "hello", swipes := ["hello"]} : Message).swipes.get? 0 = some "hello") ∧
    (commitStayOriginal (captureOriginal {mes := "hello", swipes := ["hello"]})
        (reserveAlternative {mes := "hello", swipes := ["hello"]}).1
        (reserveAlternative {mes := "hello", swipes := ["hello"]}).2
        "hey there" {}).mes = "hello" ∧
    (commitStayOriginal (captureOriginal {mes := "hello", swipes := ["hello"]})
        (reserveAlternative {mes := "hello", swipes := ["hello"]}).1
        (reserveAlternative {mes := "hello", swipes := ["hello"]}).2
        "hey there" {}).swipes = ["hello", "hey there"] := by
  refine ⟨by decide, by decide, ?_, ?_⟩
  · exact (reserve_commit_stay_on_original {mes := "hello", swipes := ["hello"]}
      "hey there" {} (by decide) (by decide)).2.2.2.2.1
  · exact (reserve_commit_stay_on_original {mes := "hello", swipes := ["hello"]}
      "hey there" {} (by decide) (by decide)).2.2.2.2.2.2

/-- C7 -- Navigation bounds: for an entry with `swipe_id` in range, the
forward handler dispatches to generation exactly when the current alternative
is the last existing one, and otherwise navigates to `swipe_id + 1`, setting
the displayed text to that alternative; `dswipeBack` is a no-op (entry
untouched) when at most one alternative exists, and otherwise targets
`max 0 (swipe_id - 1)`, never an index below 0. -/
theorem navigation_bounds (msg : Message) (hwf : msg.swipe_id < msg.swipes.length) :
    (msg.swipe_id = msg.swipes.length - 1 → forwardDispatch msg = .generateNew) ∧
    (msg.swipe_id + 1 < msg.swipes.length →
      forwardDispatch msg = .navigate (msg.swipe_id + 1) ∧
      (applyForwardNavigation msg).swipe_id = msg.swipe_id + 1 ∧
      (applyForwardNavigation msg).mes = msg.swipes.getD (msg.swipe_id + 1) "") ∧
    (msg.swipes.length ≤ 1 → applyBackNavigation msg = (msg, false)) ∧
    (1 < msg.swipes.length → backDispatch msg = .navigate (msg.swipe_id - 1)) := by
  refine ⟨?_, ?_, ?_, ?_⟩
  · intro h
    unfold forwardDispatch
    rw [if_pos (by omega)]
  · intro h
    have hfd : forwardDispatch msg = .navigate (msg.swipe_id + 1) := by
      unfold forwardDispatch
      rw [if_neg (by omega)]
    exact ⟨hfd, by simp [applyForwardNavigation, hfd], by simp [applyForwardNavigation, hfd]⟩
  · intro h
    simp [applyBackNavigation, backDispatch, h]
  · intro h
    unfold backDispatch
    rw [if_neg (by omega)]
    congr 1
    omega

/-- C7 witness -- entry with three alternatives: at `swipe_id = 2` forward is
a generation request; at `swipe_id = 1` forward navigates to alternative 2;
back from `swipe_id = 1` targets 0; a single-alternative entry is a back
no-op. -/
theorem navigation_bounds_check :
    forwardDispatch {mes := "b", swipes := ["a", "b", "c"], swipe_id := 2} = .generateNew ∧
    forwardDispatch {mes := "b", swipes := ["a", "b", "c"], swipe_id := 1} = .navigate 2 ∧
    (applyForwardNavigation {mes := "b", swipes := ["a", "b", "c"], swipe_id := 1}).mes = "c" ∧
    backDispatch {mes := "b", swipes := ["a", "b", "c"], swipe_id := 1} = .navigate 0 ∧
    applyBackNavigation {mes := "a", swipes := ["a"], swipe_id := 0} =
      ({mes := "a", swipes := ["a"], swipe_id := 0}, false) := by
  refine ⟨?_, ?_, ?_, ?_, ?_⟩
  · exact (navigation_bounds {mes := "b", swipes := ["a", "b", "c"], swipe_id := 2}
      (by decide)).1 (by decide)
  · exact ((navigation_bounds {mes := "b", swipes := ["a", "b", "c"], swipe_id := 1}
      (by decide)).2.1 (by decide)).1
  · decide
  · exact (navigation_bounds {mes := "b", swipes := ["a", "b", "c"], swipe_id := 1}
      (by decide)).2.2.2 (by decide)
  · exact (navigation_bounds {mes := "a", swipes := ["a"], swipe_id := 0}
      (by decide)).2.2.1 (by decide)

/-- C10 -- Back-navigation truncate/restore: for an assistant target with
more than one alternative at a valid index, `dswipeBack` exposes to the
native swipe a log truncated so the target is the last visible entry, and
re-appends the hidden tail on the success and the error path alike: if the
native call throws, the log afterwards equals the original log exactly and
the error is rethrown; on success the log keeps its length. -/
theorem dswipeBack_restores_tail (chat : Chat) (messageId : Nat)
    (native : Message → Except String Message) (target : Message)
    (htgt : chat.get? messageId = some target)
    (hswipes : 1 < target.swipes.length) :
    (dswipeBackAssistant chat messageId native).visibleLenDuringCall = messageId + 1 ∧
    (chat.take (messageId + 1)).getLast? = some target ∧
    (∀ e, native target = .error e →
      (dswipeBackAssistant chat messageId native).chat = chat ∧
      (dswipeBackAssistant chat messageId native).result = .error e) ∧
    (∀ upd, native target = .ok upd →
      (dswipeBackAssistant chat messageId native).chat.length = chat.length) := by
  have hlt : messageId < chat.length := by
    by_contra hge
    rw [List.get?_eq_none.mpr (by omega)] at htgt
    exact absurd htgt (by simp)
  have hns : ¬ target.swipes.length ≤ 1 := by omega
  have hget : chat[messageId]? = some target := by
    rw [← List.get?_eq_getElem?]; exact htgt
  refine ⟨?_, ?_, ?_, ?_⟩
  · cases hnat : native target with
    | ok upd =>
      simp [dswipeBackAssistant, hget, hns, hnat, List.length_take]
      omega
    | error e =>
      simp [dswipeBackAssistant, hget, hns, hnat, List.length_take]
      omega
  · have hlen : (chat.take (messageId + 1)).length = messageId + 1 := by
      simp [List.length_take]; omega
    have htake : (chat.take (messageId + 1)).get? messageId = some target := by
      have h1 : (chat.take (messageId + 1)).get? messageId = chat.get? messageId :=
        List.get?_take (by omega)
      rw [h1, htgt]
    rw [List.getLast?_eq_get?, hlen]
    simpa using htake
  · intro e he
    simp [dswipeBackAssistant, hget, hns, he]
  · intro upd hupd
    simp [dswipeBackAssistant, hget, hns, hupd, List.length_take]
    omega

/-- C10 witness -- two-entry log, assistant target at index 0 with two
alternatives, a native call that throws: the tail entry is pushed back and
the log is value-equal to the original; with a native call that succeeds the
length is likewise preserved. -/
theorem dswipeBack_restores_tail_check :
    (([{mes := "hello", swipes := ["a", "hello"], swipe_id := 1},
       {mes := "later", is_user := true}] : Chat).get? 0 =
      some {mes := "hello", swipes := ["a", "hello"], swipe_id := 1}) ∧
    (dswipeBackAssistant
      [{mes := "hello", swipes := ["a", "hello"], swipe_id := 1},
       {mes := "later", is_user := true}] 0
      (fun _ => .error "native swipe failed")).chat =
      [{mes := "hello", swipes := ["a", "hello"], swipe_id := 1},
       {mes := "later", is_user := true}] ∧
    (dswipeBackAssistant
      [{mes := "hello", swipes := ["a", "hello"], swipe_id := 1},
       {mes := "later", is_user := true}] 0
      (fun _ => .error "native swipe failed")).result = .error "native swipe failed" := by
  have h := dswipeBack_restores_tail
    [{mes := "hello", swipes := ["a", "hello"], swipe_id := 1},
     {mes := "later", is_user := true}] 0
    (fun _ => .error "native swipe failed")
    {mes := "hello", swipes := ["a", "hello"], swipe_id := 1}
    (by decide) (by decide)
  exact ⟨by decide, (h.2.2.1 "native swipe failed" rfl).1,
    (h.2.2.1 "native swipe failed" rfl).2⟩

/-- C8 -- Ambiguous-ownership stop: when the error path runs without the stop
being confirmed as this cycle's own generation, the handler detaches the
cycle's listeners, removes the UI indicators, deliberately leaves the log
untouched (no restoration from the snapshot), warns the user that state may
be inconsistent, and rethrows; the full inline restoration runs only when
ownership is confirmed. -/
theorem ambiguous_stop_minimal_cleanup (ctx : CatchCtx) (s : CatchState) :
    (s.isOurGeneration = false →
      (handleGenerationError ctx s).chat = s.chat ∧
      (handleGenerationError ctx s).restoredLog = false ∧
      (handleGenerationError ctx s).listenersDetached = true ∧
      (handleGenerationError ctx s).uiCleaned = true ∧
      (handleGenerationError ctx s).warnedInconsistent = true ∧
      (handleGenerationError ctx s).rethrown = true) ∧
    ((handleGenerationError ctx s).restoredLog = true → s.isOurGeneration = true) := by
  constructor
  · intro h
    simp [handleGenerationError, h]
  · intro h
    by_cases hown : s.isOurGeneration = true
    · exact hown
    · have hf : s.isOurGeneration = false := by simpa using hown
      simp [handleGenerationError, hf] at h

/-- C8 witness -- a stop not confirmed as ours, arriving mid-cycle with the
log still truncated: the handler leaves the truncated log exactly as it is,
warns, and rethrows. -/
theorem ambiguous_stop_minimal_cleanup_check :
    (({ chat := [{mes := "hi", is_user := true}]
        isOurGeneration := false, abortCleanupDone := false } : CatchState).isOurGeneration
      = false) ∧
    (handleGenerationError
      { messageId := 1, isUserMessage := false, capturedMessagesAfter := []
        originalTargetMessage := none }
      { chat := [{mes := "hi", is_user := true}]
        isOurGeneration := false, abortCleanupDone := false }).chat =
      [{mes := "hi", is_user := true}] ∧
    (handleGenerationError
      { messageId := 1, isUserMessage := false, capturedMessagesAfter := []
        originalTargetMessage := none }
      { chat := [{mes := "hi", is_user := true}]
        isOurGeneration := false, abortCleanupDone := false }).warnedInconsistent = true := by
  refine ⟨rfl, ?_, ?_⟩
  · exact ((ambiguous_stop_minimal_cleanup _ _).1 rfl).1
  · exact ((ambiguous_stop_minimal_cleanup _ _).1 rfl).2.2.2.2.1

/-- C6 counterexample -- the failure path does NOT run the same recovery
routine as cancellation: on a one-entry log with a User-role target whose
only alternative is `"hello"`, the cancellation cleanup restores the log
from the backup exactly, while the error path's inline recovery pops a real
alternative from the target (the reserved placeholder lives on the working
copy, not on the entry in the log), leaving the entry with an empty
alternatives array. -/
theorem empty_generation_recovery_differs :
    (handleGenerationError
        { messageId := 0, isUserMessage := true, capturedMessagesAfter := []
          originalTargetMessage := some {mes := "hello", swipes := ["hello"], is_user := true} }
        { chat := [{mes := "hello", swipes := ["hello"], is_user := true}]
          isOurGeneration := true, abortCleanupDone := false }).chat ≠
      (performAbortCleanup
        { messageId := 0, isUserMessage := true
          capturedTargetMessage := {mes := "hello", swipes := ["hello", ""], is_user := true}
          capturedMessagesAfter := [] }
        { chat := [{mes := "hello", swipes := ["hello"], is_user := true}]
          chatBackupBeforeGeneration :=
            some [{mes := "hello", swipes := ["hello"], is_user := true}]
          abortCleanupDone := false }).chat ∧
    (performAbortCleanup
        { messageId := 0, isUserMessage := true
          capturedTargetMessage := {mes := "hello", swipes := ["hello", ""], is_user := true}
          capturedMessagesAfter := [] }
        { chat := [{mes := "hello", swipes := ["hello"], is_user := true}]
          chatBackupBeforeGeneration :=
            some [{mes := "hello", swipes := ["hello"], is_user := true}]
          abortCleanupDone := false }).chat =
      [{mes := "hello", swipes := ["hello"], is_user := true}] ∧
    (handleGenerationError
        { messageId := 0, isUserMessage := true, capturedMessagesAfter := []
          originalTargetMessage := some {mes := "hello", swipes := ["hello"], is_user := true} }
        { chat := [{mes := "hello", swipes := ["hello"], is_user := true}]
          isOurGeneration := true, abortCleanupDone := false }).chat =
      [{mes := "hello", swipes := [], is_user := true}] := by
  decide

/-- C6 (amended) -- On normal completion the driver validates the final
entry of the log: a missing or User-role entry, or empty or whitespace-only
content, makes the cycle fail with a generation error; no text is extracted
(so nothing is committed), and -- when the failure is confirmed as this
cycle's own and the abort cleanup has not already run -- the catch block's
own inline recovery runs (truncate, re-insert the captured copies, pop the
revert target's trailing swipe), after which the error is rethrown. -/
theorem empty_generation_fails_cycle (chat : Chat) (ctx : CatchCtx) (s : CatchState)
    (hfail : chat.getLast? = none ∨
      ∃ am, chat.getLast? = some am ∧ (am.is_user = true ∨ jsTrim am.mes = ""))
    (hown : s.isOurGeneration = true) (hdone : s.abortCleanupDone = false) :
    (∃ e, completeGeneration chat = .error e) ∧
    (∀ t, completeGeneration chat ≠ .ok t) ∧
    (handleGenerationError ctx s).restoredLog = true ∧
    (handleGenerationError ctx s).rethrown = true := by
  have herr : ∃ e, completeGeneration chat = .error e := by
    rcases hfail with hnone | ⟨am, ham, hbad⟩
    · exact ⟨.noAssistantMessage, by simp [completeGeneration, hnone]⟩
    · by_cases hu : am.is_user = true
      · exact ⟨.noAssistantMessage, by simp [completeGeneration, ham, hu]⟩
      · have hu2 : am.is_user = false := by simpa using hu
        have htr : jsTrim am.mes = "" := by
          rcases hbad with h | h
          · exact absurd h (by simp [hu2])
          · exact h
        by_cases hm : am.mes = ""
        · exact ⟨.noTextReceived, by simp [completeGeneration, ham, hu2, hm]⟩
        · exact ⟨.noTextReceived, by simp [completeGeneration, ham, hu2, hm, htr]⟩
  obtain ⟨e, he⟩ := herr
  refine ⟨⟨e, he⟩, ?_, ?_, ?_⟩
  · intro t hok
    rw [he] at hok
    exact absurd hok (by simp)
  · simp [handleGenerationError, hown, hdone]
  · simp [handleGenerationError, hown, hdone]

/-- C6 witness -- a whitespace-only generated tail entry: completion fails
with `noTextReceived`, the inline recovery runs and the error is rethrown. -/
theorem empty_generation_fails_cycle_check :
    completeGeneration [{mes := " \n ", is_user := false}] = .error .noTextReceived ∧
    (handleGenerationError
      { messageId := 0, isUserMessage := false, capturedMessagesAfter := []
        originalTargetMessage := some {mes := "old", swipes := ["old", ""]} }
      { chat := [{mes := " \n ", is_user := false}]
        isOurGeneration := true, abortCleanupDone := false }).restoredLog = true ∧
    (handleGenerationError
      { messageId := 0, isUserMessage := false, capturedMessagesAfter := []
        originalTargetMessage := some {mes := "old", swipes := ["old", ""]} }
      { chat := [{mes := " \n ", is_user := false}]
        isOurGeneration := true, abortCleanupDone := false }).rethrown = true := by
  have h := empty_generation_fails_cycle [{mes := " \n ", is_user := false}]
    { messageId := 0, isUserMessage := false, capturedMessagesAfter := []
      originalTargetMessage := some {mes := "old", swipes := ["old", ""]} }
    { chat := [{mes := " \n ", is_user := false}]
      isOurGeneration := true, abortCleanupDone := false }
    (Or.inr ⟨{mes := " \n ", is_user := false}, by decide, Or.inr (by decide)⟩)
    rfl rfl
  exact ⟨by decide, h.2.2.1, h.2.2.2⟩

/-- C3 counterexample -- the save step after cleanup/commit is not a guarded
save: with the spec's own corrupting persist stub (mutates the first entry's
content) on a one-entry log, the log after the orchestrator's save step
equals the corrupted output, not the pre-save snapshot -- there is no
pre-write copy, no entry-by-entry comparison, no restoration, and no second
guarded pass anywhere in the code. -/
theorem guarded_save_counterexample :
    savePhase corruptingPersist [{mes := "hello"}] ≠ [{mes := "hello"}] ∧
    savePhase corruptingPersist [{mes := "hello"}] = [{mes := "corrupted"}] := by
  decide

/-- The guarded save described by the spec would preserve every entry's
content against an arbitrary persist effect. -/
theorem specGuardedSave_preserves_mes (persist : Chat → Chat) (chat : Chat) :
    (specGuardedSave persist chat).map (fun m => m.mes) = chat.map (fun m => m.mes) := by
  unfold specGuardedSave
  by_cases h : (persist chat).map (fun m => m.mes) = chat.map (fun m => m.mes)
  · rw [if_pos h]
    exact h
  · rw [if_neg h]

/-- C3 (amended) -- after cleanup/commit, persistence is a single plain
external save call (`saveChatConditional()` on the success path,
`context.saveChat()` in the abort cleanup): the log afterwards is exactly
whatever the external save leaves behind, with no pre-write copy, no
post-save comparison and no restoration; by contrast the guarded save the
spec describes (modelled here as `specGuardedSave`, with no counterpart in
the code), run once or twice, would leave every entry's content equal to the
pre-save snapshot. -/
theorem save_is_unguarded (persist : Chat → Chat) (chat : Chat) :
    savePhase persist chat = persist chat ∧
    (specGuardedSave persist chat).map (fun m => m.mes) = chat.map (fun m => m.mes) ∧
    (specGuardedSaveTwice persist chat).map (fun m => m.mes) = chat.map (fun m => m.mes) := by
  refine ⟨rfl, specGuardedSave_preserves_mes persist chat, ?_⟩
  exact (specGuardedSave_preserves_mes persist (specGuardedSave persist chat)).trans
    (specGuardedSave_preserves_mes persist chat)

end DeepSwipe
